import Mathlib

/-!
Verification of the simpleblog web server (src/main.rs) against its
specification. The Rust source is shallowly embedded below: each handler
becomes a pure function of the file contents it reads (a missing or
unreadable file is `none`), `u16` arithmetic is `Nat` arithmetic reduced
modulo 2^16 where the source can overflow, and a panic (`unwrap` failure)
is modelled by an `Option.none` result.
-/

namespace Simpleblog

/-- The `Article` struct (main.rs lines 42-48): one persisted article record. -/
structure Article where
  title : String
  article_id : String
  description : String
  date : String
deriving DecidableEq

/-- The `SiteConfig` struct (lines 24-33), read from the configuration file at startup. -/
structure SiteConfig where
  port : String
  file_path : String
  site_title : String
  site_description : String
  site_link : String
  admin_username : String
  admin_password : String
deriving DecidableEq

/-- An HTTP response: status code and body. Headers (content type) are not modelled. -/
structure Response where
  status : Nat
  body : String
deriving DecidableEq

/-- Lexicographic strict comparison of character lists. Rust compares strings
byte-lexicographically; on UTF-8 bytes that order coincides with codepoint
order, so comparing `Char` sequences is faithful. Defined by structural
recursion so concrete comparisons evaluate inside the kernel. -/
def charListLtb : List Char → List Char → Bool
  | [], [] => false
  | [], _ :: _ => true
  | _ :: _, [] => false
  | a :: as, b :: bs => if a < b then true else if b < a then false else charListLtb as bs

/-- Rust `<` on `String`. -/
def strLtb (s t : String) : Bool := charListLtb s.data t.data

/-- Rust `Ord::cmp` on `String`: lexicographic three-way comparison. -/
def strCmp (s t : String) : Ordering :=
  if strLtb s t then Ordering.lt else if strLtb t s then Ordering.gt else Ordering.eq

/-- `impl Ord for Article` (lines 97-101): `fn cmp(&self, other) = other.date.cmp(&self.date)`.
The arguments to the string comparison are swapped, so greater dates sort first. -/
def Article.cmp (self other : Article) : Ordering := strCmp other.date self.date

/-- `a` sorts no later than `b` under the `Article` order: `cmp` is not `Greater`.
`Vec::sort` produces a sequence ascending with respect to this relation. -/
def articleLE (a b : Article) : Bool := a.cmp b != Ordering.gt

/-- `article_list.sort()` (lines 131, 207, 326): Rust `slice::sort` is a stable
merge sort ordered by `impl Ord for Article`; `List.mergeSort` is likewise stable. -/
def sortArticles (l : List Article) : List Article := l.mergeSort articleLE

/-- 2^16, the modulus of `u16` arithmetic. -/
def U16_MOD : Nat := 65536

/-- The page slice taken by the `articles` handler (lines 212-217):
`.skip(usize::from(true_index * 10)).take(10)`. `true_index * 10` is computed
in `u16` arithmetic, hence reduced modulo 2^16 (release-build wrapping
semantics; a debug build would panic on the same overflow, so either way the
behaviour past 6553 is not the in-range slice). -/
def paginate (articles : List Article) (true_index : Nat) : List Article :=
  (articles.drop (true_index * 10 % U16_MOD)).take 10

/-- `let num_pages = num_articles / 10` (line 210): floor division. -/
def numPages (num_articles : Nat) : Nat := num_articles / 10

/-- `articles.len().try_into::<u16>().unwrap()` (line 209): the conversion
succeeds exactly when the count fits in `u16`; `none` models the panic. -/
def lenToU16 (n : Nat) : Option Nat := if n < U16_MOD then some n else none

/-- The paginate operation as the specification words it: the sub-sequence
`[page_index*10, page_index*10+10)` of the ordered list, clamped to the
available length. Stated from the spec (section 4.2) for comparison with
`paginate` above. -/
def spec_paginate (ordered : List Article) (page_index : Nat) : List Article :=
  (ordered.drop (page_index * 10)).take 10

/-- One navigation link of the article index page. -/
inductive NavLink where
  | first
  | previous (target : Nat)
  | next (target : Nat)
  | last (target : Nat)
deriving DecidableEq

/-- The navigation bar built at lines 243-259, as the ordered list of links
pushed: First and Previous when `true_index != 0`, Next and Last when
`true_index < num_pages`. (`true_index - 1` is `u16` subtraction, guarded
nonzero; `true_index + 1` cannot wrap because `num_pages` is at most 6553.) -/
def navButtons (true_index num_pages : Nat) : List NavLink :=
  (if true_index ≠ 0 then [NavLink.first, NavLink.previous (true_index - 1)] else []) ++
  (if true_index < num_pages then [NavLink.next (true_index + 1), NavLink.last num_pages] else [])

/-- The markup of one navigation link, exactly as the `format!` calls at
lines 246-257 produce it. -/
def NavLink.render : NavLink → String
  | NavLink.first => "<li><a href=articles?index=0>First</a></li>"
  | NavLink.previous t => "<li><a href=articles?index=" ++ toString t ++ ">Previous</a></li>"
  | NavLink.next t => "<li><a href=articles?index=" ++ toString t ++ ">Next</a></li>"
  | NavLink.last t => "<li><a href=articles?index=" ++ toString t ++ ">Last</a></li>"

/-- The complete `nav_buttons` string (lines 243-259). -/
def renderNav (links : List NavLink) : String :=
  "<ul class = \x27article_bar\x27>" ++ String.join (links.map NavLink.render) ++ "</ul>"

/-- `Article::to_preview_html` (lines 52-69), with the exact `format!` literal. -/
def Article.to_preview_html (a : Article) : String :=
  "\n            <div class=\x27article_preview\x27>\n                <h2>" ++ a.title ++
  "</h2>\n                <div class=\x27preview_content\x27>\n                <p class=\x27article_timestamp\x27>" ++
  a.date ++ "</p>\n                <p>" ++ a.description ++
  "</p>\n                </div>\n                <a href=\x27/./articles/" ++ a.article_id ++
  "\x27>Read</a>\n            </div>\n            "

/-- `Article::to_preview_xml` (lines 71-87), with the exact `format!` literal. -/
def Article.to_preview_xml (a : Article) (config : SiteConfig) : String :=
  "\n            <item>\n                <title>" ++ a.title ++
  "</title>\n                <pubDate>" ++ a.date ++
  "</pubDate>\n                <description>" ++ a.description ++
  "</description>\n                <link>" ++ config.site_link ++ "/articles/" ++ a.article_id ++
  "</link>\n            </item>\n            "

/-- The template tokens substituted by the handlers. -/
def latest_article_token : String := "{latest_article}"

def articles_token : String := "{articles}"

def links_token : String := "{links}"

def article_content_token : String := "{article_content}"

/-- The fallback body built when `fnfpage.html` cannot be opened (lines 368-372). -/
def DEFAULT_404_BODY : String := "<h1>404 Page not found</h1><p>Ironic I know</p>"

/-- `get_404_error` (lines 361-381). `fnfpage` holds the contents of
`fnfpage.html` when that file can be opened, `none` otherwise. Note the
source returns status `OK` (200), not 404, when the custom page exists.
(When the file opens but `read_to_string` fails the source `unwrap`s and
panics; that path is not modelled.) -/
def get_404_error (fnfpage : Option String) : Response :=
  match fnfpage with
  | none => { status := 404, body := DEFAULT_404_BODY }
  | some index_contents => { status := 200, body := index_contents }

/-- The `homepage` handler (lines 106-147). `index_file` is the contents of
`index.html` when it can be opened and read; `store` is the result of
`get_articles`; `fnfpage` as in `get_404_error`. -/
def homepage (index_file : Option String) (store : Option (List Article))
    (fnfpage : Option String) : Response :=
  match index_file with
  | none => get_404_error fnfpage
  | some index_contents =>
    match store with
    | none => get_404_error fnfpage
    | some article_list =>
      let article_elements := ((sortArticles article_list).take 1).map Article.to_preview_html
      { status := 200,
        body := article_elements.foldl (fun acc e => acc.replace latest_article_token e) index_contents }

/-- The `article` handler (lines 150-188). `article_template` is the contents
of `article_template.html`; `article_content` is the result of
`markdown::file_to_html` on the body file named by the requested id (`none`
covers the missing body file and any conversion failure). -/
def article (article_template : Option String) (article_content : Option String)
    (fnfpage : Option String) : Response :=
  match article_template with
  | none => get_404_error fnfpage
  | some base_contents =>
    match article_content with
    | none => get_404_error fnfpage
    | some c => { status := 200, body := base_contents.replace article_content_token c }

/-- The `articles` handler (lines 191-267). `store` is the result of
`get_articles`; `articles_template` the contents of `articles.html`;
`index` the optional `index` query parameter (`true_index` defaults to 0).
The `none` result models the panic of the `unwrap` at line 209 when the
article count does not fit in `u16`. -/
def articles (store : Option (List Article)) (articles_template : Option String)
    (index : Option Nat) (fnfpage : Option String) : Option Response :=
  let true_index := index.getD 0
  match store with
  | none => some (get_404_error fnfpage)
  | some arts =>
    let sorted := sortArticles arts
    match lenToU16 sorted.length with
    | none => none
    | some num_articles =>
      let num_pages := numPages num_articles
      let content := String.join ((paginate sorted true_index).map Article.to_preview_html)
      match articles_template with
      | none => some (get_404_error fnfpage)
      | some base_contents =>
        let with_articles := base_contents.replace articles_token content
        some { status := 200,
               body := with_articles.replace links_token (renderNav (navButtons true_index num_pages)) }

/-- The fixed RSS 2.0 envelope of `get_feed` (lines 341-355), with the exact
`format!` literal. -/
def rss_envelope (config : SiteConfig) (content : String) : String :=
  "\n        <rss version=\"2.0\">\n        <channel>\n        <title>" ++ config.site_title ++
  "</title>\n        <link>" ++ config.site_link ++
  "</link>\n        <description>" ++ config.site_description ++
  "</description>\n        " ++ content ++
  "\n        </channel>\n        </rss>\n        "

/-- The `get_feed` handler (lines 318-356). -/
def get_feed (store : Option (List Article)) (config : SiteConfig)
    (fnfpage : Option String) : Response :=
  match store with
  | none => get_404_error fnfpage
  | some prev_articles =>
    let sorted := sortArticles prev_articles
    { status := 200,
      body := rss_envelope config
        (String.join ((sorted.take 10).map (fun a => a.to_preview_xml config))) }

/-! ### The article store

`articles.yml` is a flat file holding a YAML block sequence of `Article`
records. `get_articles` deserializes the whole file with
`serde_yml::from_str::<Vec<Article>>`; `post_article` appends
`serde_yml::to_string(&article)` to the file. The two `serde_yml` entry
points are external-library collaborators; they are modelled below on the
fragment of YAML this program exchanges: plain (unquoted, newline-free)
scalar values and the four fields in declaration order, which is exactly
what `serde_yml` emits for these structs. -/

/-- `serde_yml::to_string(&article)` (line 300): a struct of plain string
fields serializes to a root-level block mapping, one `key: value` line per
field in declaration order, ending in a newline. Serialization of such a
struct cannot fail, so the `BAD_REQUEST` arm at line 303 is unreachable. -/
def serde_yml_to_string (a : Article) : String :=
  "title: " ++ a.title ++ "\narticle_id: " ++ a.article_id ++
  "\ndescription: " ++ a.description ++ "\ndate: " ++ a.date ++ "\n"

/-- The line prefixes of one entry of the YAML block sequence in a
well-formed `articles.yml`. -/
def itemTitleKey : String := "- title: "

def itemIdKey : String := "  article_id: "

def itemDescKey : String := "  description: "

def itemDateKey : String := "  date: "

/-- One article as an entry of a YAML block sequence, as `serde_yml` writes
a `Vec<Article>` element: the first field on the `- ` item line, the
remaining fields indented beneath it. -/
def serialize_article_list_item (a : Article) : String :=
  itemTitleKey ++ a.title ++ "\n" ++ itemIdKey ++ a.article_id ++ "\n" ++
  itemDescKey ++ a.description ++ "\n" ++ itemDateKey ++ a.date ++ "\n"

/-- A well-formed `articles.yml` holding the given records. -/
def serialize_article_list (l : List Article) : String :=
  String.join (l.map serialize_article_list_item)

/-- The newline character. -/
def newlineChar : Char := Char.ofNat 10

/-- Split a character list into lines at newlines (terminators removed). -/
def splitLinesAux : List Char → List Char → List (List Char)
  | [], acc => [acc.reverse]
  | c :: cs, acc =>
    if c = newlineChar then acc.reverse :: splitLinesAux cs []
    else splitLinesAux cs (c :: acc)

/-- The lines of a string. -/
def splitLines (s : String) : List (List Char) := splitLinesAux s.data []

/-- Strip a required prefix, or fail. -/
def dropPrefixQ (pre : List Char) (l : List Char) : Option (List Char) :=
  if pre.isPrefixOf l then some (l.drop pre.length) else none

/-- Parse the non-blank lines of a YAML block sequence of articles: each
entry is four `key: value` lines in fixed order, the first carrying the
`- ` sequence-entry marker. Any other shape — in particular a root-level
mapping line where a sequence entry marker is required — is a YAML parse
error, modelled as `none`. -/
def parseItemLines : List (List Char) → Option (List Article)
  | [] => some []
  | l0 :: l1 :: l2 :: l3 :: rest =>
    match dropPrefixQ itemTitleKey.data l0, dropPrefixQ itemIdKey.data l1,
          dropPrefixQ itemDescKey.data l2, dropPrefixQ itemDateKey.data l3 with
    | some t, some i, some d, some dt =>
      (parseItemLines rest).map
        (fun as =>
          { title := String.mk t, article_id := String.mk i,
            description := String.mk d, date := String.mk dt } :: as)
    | _, _, _, _ => none
  | _ => none

/-- `serde_yml::from_str::<Vec<Article>>` (line 402), modelled on the block
sequences this program reads and writes: blank lines are immaterial, and
the document must be a root-level block sequence of article mappings. -/
def serde_yml_from_str (s : String) : Option (List Article) :=
  parseItemLines ((splitLines s).filter (fun l => l ≠ []))

/-- `get_articles` (lines 384-410): opens and reads `articles.yml` (failure
gives `Err`, here `none`) and deserializes the whole contents as a list of
articles. `file` is the file contents when it can be opened and read. -/
def get_articles (file : Option String) : Option (List Article) :=
  match file with
  | none => none
  | some base_contents => serde_yml_from_str base_contents

/-- The Basic credentials carried by a `POST /articles` request. -/
structure BasicAuth where
  username : String
  password : String
deriving DecidableEq

/-- The observable outcome of `post_article`: HTTP status, the contents of
`articles.yml` afterwards, and whether the handler attempted to open the
store file at all. -/
structure PostResult where
  status : Nat
  store_contents : String
  store_opened : Bool
deriving DecidableEq

/-- `post_article` (lines 270-315). The username and then the password are
compared against the configured admin credentials by exact string equality;
a mismatch returns `METHOD_NOT_ALLOWED` (405) before the store file is
touched. On success the serialized record is appended to the raw file
contents and `OK` (200) is returned. `can_open` models whether
`articles.yml` can be opened for append and written (failure gives
`INTERNAL_SERVER_ERROR`, 500). -/
def post_article (config : SiteConfig) (auth : BasicAuth) (article_data : Article)
    (store : String) (can_open : Bool) : PostResult :=
  if auth.username ≠ config.admin_username then
    { status := 405, store_contents := store, store_opened := false }
  else if auth.password ≠ config.admin_password then
    { status := 405, store_contents := store, store_opened := false }
  else if can_open then
    { status := 200, store_contents := store ++ serde_yml_to_string article_data,
      store_opened := true }
  else
    { status := 500, store_contents := store, store_opened := true }

/-! ### Concrete inputs used by witnesses and counterexamples -/

/-- A sample article. -/
def art0 : Article :=
  { title := "First post", article_id := "first-post",
    description := "hello", date := "2024-01-01" }

/-- A second sample article, dated later. -/
def art1 : Article :=
  { title := "Second post", article_id := "second-post",
    description := "world", date := "2024-02-02" }

/-- A third sample article, dated between the other two. -/
def art2 : Article :=
  { title := "Third post", article_id := "third-post",
    description := "again", date := "2024-01-15" }

/-- A sample site configuration. -/
def cfg0 : SiteConfig :=
  { port := "0.0.0.0:8080", file_path := "site/", site_title := "Blog",
    site_description := "A blog", site_link := "https://blog.example",
    admin_username := "admin", admin_password := "hunter2" }

/-- Credentials matching `cfg0`. -/
def goodAuth : BasicAuth := { username := "admin", password := "hunter2" }

/-- Credentials with the wrong password. -/
def badAuth : BasicAuth := { username := "admin", password := "Hunter2" }

/-- A custom not-found page body. -/
def customFnf : String := "<h1>Custom not found page</h1>"

/-- A second article sharing the date of `art0`, for tie-breaking arguments. -/
def art0b : Article :=
  { title := "Other post", article_id := "other-post",
    description := "same day", date := "2024-01-01" }

/-! ## Properties of the string order -/

/-- `charListLtb` decides the lexicographic strict order on character lists. -/
theorem charListLtb_iff (as : List Char) :
    ∀ bs, charListLtb as bs = true ↔ List.Lex (fun x y => x < y) as bs := by
  induction as with
  | nil =>
    intro bs
    cases bs with
    | nil =>
      simp only [charListLtb, Bool.false_eq_true, false_iff]
      exact List.Lex.not_nil_right _ _
    | cons b bs => simp only [charListLtb, true_iff]; exact List.Lex.nil
  | cons a as ih =>
    intro bs
    cases bs with
    | nil =>
      simp only [charListLtb, Bool.false_eq_true, false_iff]
      exact List.Lex.not_nil_right _ _
    | cons b bs =>
      simp only [charListLtb]
      rcases lt_trichotomy a b with h | h | h
      · simp only [if_pos h, true_iff]
        exact List.Lex.rel h
      · subst h
        rw [if_neg (lt_irrefl a), if_neg (lt_irrefl a), ih bs]
        constructor
        · exact List.Lex.cons
        · intro hl
          exact (List.Lex.cons_iff).mp hl
      · rw [if_neg (asymm h), if_pos h]
        simp only [Bool.false_eq_true, false_iff]
        intro hl
        cases hl with
        | rel h2 => exact absurd h2 (asymm h)
        | cons h2 => exact absurd h (lt_irrefl a)

/-- `strLtb` decides `<` on strings. -/
theorem strLtb_iff (s t : String) : strLtb s t = true ↔ s < t := by
  rw [String.lt_iff_toList_lt]
  exact charListLtb_iff s.data t.data

/-- The `Article` order sorts `a` no later than `b` exactly when `b`-s date is
lexically at most `a`-s date. -/
theorem articleLE_iff (a b : Article) : articleLE a b = true ↔ b.date ≤ a.date := by
  unfold articleLE Article.cmp strCmp
  rcases lt_trichotomy b.date a.date with h | h | h
  · rw [if_pos ((strLtb_iff _ _).mpr h)]
    exact iff_of_true (by decide) (le_of_lt h)
  · have hlt1 : ¬ (strLtb b.date a.date = true) := by rw [strLtb_iff, h]; exact lt_irrefl _
    have hlt2 : ¬ (strLtb a.date b.date = true) := by rw [strLtb_iff, h]; exact lt_irrefl _
    rw [if_neg hlt1, if_neg hlt2]
    exact iff_of_true (by decide) (le_of_eq h)
  · have hlt1 : ¬ (strLtb b.date a.date = true) := by rw [strLtb_iff]; exact asymm h
    rw [if_neg hlt1, if_pos ((strLtb_iff _ _).mpr h)]
    exact iff_of_false (by decide) (not_le_of_lt h)

/-- Transitivity of the `Article` order. -/
theorem articleLE_trans (a b c : Article) (h1 : articleLE a b) (h2 : articleLE b c) :
    articleLE a c := by
  rw [articleLE_iff] at h1 h2 ⊢
  exact le_trans h2 h1

/-- Totality of the `Article` order. -/
theorem articleLE_total (a b : Article) : articleLE a b || articleLE b a := by
  rcases le_total a.date b.date with h | h
  · have : articleLE b a := (articleLE_iff b a).mpr h
    simp [this]
  · have : articleLE a b := (articleLE_iff a b).mpr h
    simp [this]

/-! ## Claim C1: store round-trip -/

/-- C1: the claimed append/load round trip fails on the code. Starting from a
well-formed one-record `articles.yml` (which `get_articles` parses), a
`POST /articles` with correct credentials returns success and appends
`serde_yml::to_string(&article)` — a root-level YAML mapping without the
sequence-entry marker — after which the file is no longer a YAML sequence
and `get_articles` fails to parse it, so the appended record never becomes
visible. Evaluates the code at the failing input. -/
theorem c1_append_breaks_store :
    get_articles (some (serialize_article_list [art0])) = some [art0] ∧
    post_article cfg0 goodAuth art1 (serialize_article_list [art0]) true =
      { status := 200,
        store_contents := serialize_article_list [art0] ++ serde_yml_to_string art1,
        store_opened := true } ∧
    get_articles (some (serialize_article_list [art0] ++ serde_yml_to_string art1)) = none :=
  ⟨by decide, by decide, by decide⟩

/-! ## Claim C2: page count and the Last link -/

/-- C2, counterexample: with 25 stored articles, `num_pages` is 2, and the
navigation rendered at page 0 does contain a Last link targeting page
index 2 — the claim that the navigation omits any such link is false. -/
theorem c2_counterexample : numPages 25 = 2 ∧ NavLink.last 2 ∈ navButtons 0 (numPages 25) := by
  decide

/-- C2, amended: page_count is floor division of the total by 10, so for
total=25 it equals 2, and the navigation on every page index below 2
includes a Last link targeting page index 2 — the trailing partial page is
exactly what the Last link points to. -/
theorem c2_last_links_partial_page (i : Nat) (h : i < numPages 25) :
    numPages 25 = 2 ∧ NavLink.last 2 ∈ navButtons i (numPages 25) := by
  refine ⟨by decide, ?_⟩
  have h2 : numPages 25 = 2 := by decide
  rw [h2] at h ⊢
  unfold navButtons
  exact List.mem_append_right _ (by rw [if_pos h]; simp)

/-- C2, witness: the amended statement instantiated at page index 1. -/
theorem c2_witness :
    1 < numPages 25 ∧ (numPages 25 = 2 ∧ NavLink.last 2 ∈ navButtons 1 (numPages 25)) :=
  ⟨by decide, c2_last_links_partial_page 1 (by decide)⟩

/-! ## Claim C3: pagination slice -/

/-- C3, counterexample: at page index 6554 the `u16` offset `6554 * 10`
wraps to 4, so on a 14-article store the handler serves articles 4..14
instead of the specified (empty) slice `[65540, 65550)`. -/
theorem c3_wrap_counterexample :
    paginate (List.replicate 14 art0) 6554 ≠ spec_paginate (List.replicate 14 art0) 6554 := by
  decide

/-- C3, amended: for every page index with `i * 10` inside `u16` range
(i.e. `i ≤ 6553`), pagination returns exactly the contiguous sub-sequence
`[i*10, i*10+10)` clamped to the available length — at most 10 elements,
and an empty slice (never an error) once `i*10` is beyond the list. -/
theorem c3_paginate_in_range (ordered : List Article) (i : Nat) (h : i ≤ 6553) :
    paginate ordered i = spec_paginate ordered i ∧
    (paginate ordered i).length ≤ 10 ∧
    (ordered.length ≤ i * 10 → paginate ordered i = []) := by
  have hm : i * 10 % U16_MOD = i * 10 := Nat.mod_eq_of_lt (by unfold U16_MOD; omega)
  have heq : paginate ordered i = spec_paginate ordered i := by
    unfold paginate spec_paginate
    rw [hm]
  refine ⟨heq, ?_, ?_⟩
  · rw [heq]
    exact List.length_take_le _ _
  · intro hlen
    rw [heq]
    unfold spec_paginate
    rw [List.drop_eq_nil_of_le hlen]
    rfl

/-- C3, witness: the amended statement instantiated at a one-article store
and page index 0. -/
theorem c3_witness :
    (0 : Nat) ≤ 6553 ∧
    (paginate [art0] 0 = spec_paginate [art0] 0 ∧
     (paginate [art0] 0).length ≤ 10 ∧
     ([art0].length ≤ 0 * 10 → paginate [art0] 0 = [])) :=
  ⟨by decide, c3_paginate_in_range [art0] 0 (by decide)⟩

/-! ## Claim C4: descending date order -/

/-- C4: sorting any list of articles with pairwise-distinct date strings
under the `Article` ordering yields a sequence in which every element's
date is lexically at least the next element's date (descending lexical
order). The distinctness hypothesis from the claim is stated but not even
needed. -/
theorem c4_sort_descending_dates (l : List Article)
    (h : l.Pairwise (fun a b => a.date ≠ b.date)) :
    List.Chain' (fun a b => b.date ≤ a.date) (sortArticles l) := by
  have hp := @List.sorted_mergeSort Article articleLE articleLE_trans articleLE_total l
  exact (hp.imp (fun hab => (articleLE_iff _ _).mp hab)).chain'

/-- C4, witness: the theorem instantiated at three distinctly dated articles. -/
theorem c4_witness :
    ([art0, art1, art2].Pairwise (fun a b => a.date ≠ b.date)) ∧
    List.Chain' (fun a b => b.date ≤ a.date) (sortArticles [art0, art1, art2]) :=
  ⟨by decide, c4_sort_descending_dates _ (by decide)⟩

/-! ## Claim C5: failure handling -/

/-- C5, counterexample: a content-rendering failure (missing `index.html`)
with a custom `fnfpage.html` present yields status 200, not the claimed
unconditional 404. -/
theorem c5_counterexample : (homepage none (some []) (some customFnf)).status ≠ 404 := by
  decide

/-- C5, amended: every content-rendering failure in the GET handlers
(missing or unreadable template, store load or parse failure, missing
article body or markup conversion failure) produces the page built by
`get_404_error`; that response carries HTTP status 404 with a built-in
body only when `fnfpage.html` is absent, and status 200 with the custom
page contents when it is present. -/
theorem c5_failures_collapse (fnf : Option String) (tmpl content : String)
    (store : List Article) (cfg : SiteConfig) (idx : Option Nat)
    (h : store.length < U16_MOD) :
    homepage none (some store) fnf = get_404_error fnf ∧
    homepage (some tmpl) none fnf = get_404_error fnf ∧
    article none (some content) fnf = get_404_error fnf ∧
    article (some tmpl) none fnf = get_404_error fnf ∧
    articles none (some tmpl) idx fnf = some (get_404_error fnf) ∧
    articles (some store) none idx fnf = some (get_404_error fnf) ∧
    get_feed none cfg fnf = get_404_error fnf ∧
    (get_404_error fnf).status = (if fnf.isSome then 200 else 404) := by
  refine ⟨rfl, rfl, rfl, rfl, rfl, ?_, rfl, ?_⟩
  · simp only [articles, sortArticles, lenToU16, List.length_mergeSort, if_pos h]
  · cases fnf <;> rfl

/-- C5, witness: the amended statement instantiated with a one-article
store and no custom not-found page. -/
theorem c5_witness :
    ([art0].length < U16_MOD) ∧
    (homepage none (some [art0]) none = get_404_error none ∧
    homepage (some customFnf) none none = get_404_error none ∧
    article none (some customFnf) none = get_404_error none ∧
    article (some customFnf) none none = get_404_error none ∧
    articles none (some customFnf) none none = some (get_404_error none) ∧
    articles (some [art0]) none none none = some (get_404_error none) ∧
    get_feed none cfg0 none = get_404_error none ∧
    (get_404_error none).status = (if (none : Option String).isSome then 200 else 404)) :=
  ⟨by decide, c5_failures_collapse none customFnf customFnf [art0] cfg0 none (by decide)⟩

/-! ## Claim C6: authentication failure leaves the store untouched -/

/-- C6: whenever the supplied Basic-auth username or password differs from
the configured admin credentials (exact, case-sensitive string equality),
`post_article` returns 405 — distinct from not-found (404) and success
(200) — and the store file is neither opened nor modified. -/
theorem c6_auth_mismatch (config : SiteConfig) (auth : BasicAuth) (a : Article)
    (store : String) (can_open : Bool)
    (h : auth.username ≠ config.admin_username ∨ auth.password ≠ config.admin_password) :
    post_article config auth a store can_open =
      { status := 405, store_contents := store, store_opened := false } ∧
    (405 : Nat) ≠ 404 ∧ (405 : Nat) ≠ 200 := by
  refine ⟨?_, by decide, by decide⟩
  unfold post_article
  by_cases hu : auth.username = config.admin_username
  · have hp : auth.password ≠ config.admin_password := h.resolve_left (not_not_intro hu)
    rw [if_neg (not_not_intro hu), if_pos hp]
  · rw [if_pos hu]

/-- C6, witness: the theorem instantiated at a wrong-case password. -/
theorem c6_witness :
    (badAuth.username ≠ cfg0.admin_username ∨ badAuth.password ≠ cfg0.admin_password) ∧
    (post_article cfg0 badAuth art1 (serialize_article_list [art0]) true =
      { status := 405, store_contents := serialize_article_list [art0], store_opened := false } ∧
    (405 : Nat) ≠ 404 ∧ (405 : Nat) ≠ 200) :=
  ⟨Or.inr (by decide),
   c6_auth_mismatch cfg0 badAuth art1 (serialize_article_list [art0]) true (Or.inr (by decide))⟩

/-! ## Claim C7: navigation links -/

/-- C7: the navigation contains the First link, and some Previous link,
exactly when the page index is nonzero, and contains some Next link, and
some Last link, exactly when the index is strictly below
`page_count = total / 10`; with index 0 and fewer than 10 stored articles
the navigation is empty and the page shows every article. -/
theorem c7_nav_iff (store : List Article) (i : Nat)
    (hlen : store.length < U16_MOD) (hi : i < U16_MOD) :
    (NavLink.first ∈ navButtons i (numPages store.length) ↔ i ≠ 0) ∧
    ((∃ t, NavLink.previous t ∈ navButtons i (numPages store.length)) ↔ i ≠ 0) ∧
    ((∃ t, NavLink.next t ∈ navButtons i (numPages store.length)) ↔ i < numPages store.length) ∧
    ((∃ t, NavLink.last t ∈ navButtons i (numPages store.length)) ↔ i < numPages store.length) ∧
    (store.length < 10 →
      navButtons 0 (numPages store.length) = [] ∧
      paginate (sortArticles store) 0 = sortArticles store) := by
  refine ⟨?_, ?_, ?_, ?_, ?_⟩
  · by_cases h0 : i = 0 <;> by_cases hp : i < numPages store.length <;>
      simp [navButtons, h0, hp]
  · by_cases h0 : i = 0 <;> by_cases hp : i < numPages store.length <;>
      simp [navButtons, h0, hp]
  · by_cases h0 : i = 0 <;> by_cases hp : i < numPages store.length <;>
      simp [navButtons, h0, hp]
  · by_cases h0 : i = 0 <;> by_cases hp : i < numPages store.length <;>
      simp [navButtons, h0, hp]
  · intro h10
    constructor
    · simp [navButtons, numPages, Nat.div_eq_of_lt h10]
    · unfold paginate
      have hz : (0 * 10) % U16_MOD = 0 := by decide
      rw [hz, List.drop_zero]
      exact List.take_of_length_le (by
        rw [sortArticles, List.length_mergeSort]
        omega)

/-- C7, witness: the theorem instantiated at a one-article store and page
index 0. -/
theorem c7_witness :
    ([art0].length < U16_MOD ∧ (0 : Nat) < U16_MOD) ∧
    ((NavLink.first ∈ navButtons 0 (numPages [art0].length) ↔ (0 : Nat) ≠ 0) ∧
    ((∃ t, NavLink.previous t ∈ navButtons 0 (numPages [art0].length)) ↔ (0 : Nat) ≠ 0) ∧
    ((∃ t, NavLink.next t ∈ navButtons 0 (numPages [art0].length)) ↔ 0 < numPages [art0].length) ∧
    ((∃ t, NavLink.last t ∈ navButtons 0 (numPages [art0].length)) ↔ 0 < numPages [art0].length) ∧
    ([art0].length < 10 →
      navButtons 0 (numPages [art0].length) = [] ∧
      paginate (sortArticles [art0]) 0 = sortArticles [art0])) :=
  ⟨⟨by decide, by decide⟩, c7_nav_iff [art0] 0 (by decide) (by decide)⟩

/-! ## Claim C8: the articles handler is not total -/

/-- C8: with more than 65535 stored articles the `articles` handler panics
(the `u16` conversion `unwrap` fails) instead of returning a response, for
every template, query index and not-found page; and for every requested
index of 6554 or more the `u16` offset multiplication `i * 10` overflows
(reaches 2^16), so the handler serves the wrapped slice rather than the
specified empty page, as the concrete 14-article store at index 6554
shows. -/
theorem c8_articles_not_total (store : List Article) (i : Nat)
    (hlen : 65535 < store.length) (hi : 6554 ≤ i) :
    (∀ tmpl idx fnf, articles (some store) tmpl idx fnf = none) ∧
    U16_MOD ≤ i * 10 ∧
    paginate (List.replicate 14 art0) 6554 ≠ spec_paginate (List.replicate 14 art0) 6554 := by
  refine ⟨?_, by unfold U16_MOD; omega, by decide⟩
  intro tmpl idx fnf
  simp only [articles, sortArticles, lenToU16, List.length_mergeSort]
  rw [if_neg (by unfold U16_MOD; omega)]

/-- C8, witness: the theorem instantiated at a store of 65536 articles and
index 6554; the handler returns no response. -/
theorem c8_witness :
    (65535 < (List.replicate 65536 art0).length ∧ (6554 : Nat) ≤ 6554) ∧
    articles (some (List.replicate 65536 art0)) none none none = none :=
  ⟨⟨by norm_num [List.length_replicate], by decide⟩,
   (c8_articles_not_total (List.replicate 65536 art0) 6554
      (by norm_num [List.length_replicate]) (by decide)).1 none none none⟩

/-! ## Claim C9: stability on ties -/

/-- C9: the sort is stable on equal dates. Two articles with the same date
string appearing in order in the input still appear in that order in the
sorted output, and, for every date, the subsequence of articles carrying
that date is preserved exactly. -/
theorem c9_sort_stable (l : List Article) (a b : Article)
    (hd : a.date = b.date) (hsub : List.Sublist [a, b] l) :
    List.Sublist [a, b] (sortArticles l) ∧
    ∀ d : String,
      (sortArticles l).filter (fun x => x.date == d) = l.filter (fun x => x.date == d) := by
  constructor
  · exact List.pair_sublist_mergeSort articleLE_trans articleLE_total
      ((articleLE_iff a b).mpr (le_of_eq hd.symm)) hsub
  · intro d
    have hpw : (l.filter (fun x => x.date == d)).Pairwise (fun x y => articleLE x y = true) := by
      apply List.pairwise_of_forall_mem_list
      intro x hx y hy
      have hxd : x.date = d := by simpa using (List.mem_filter.mp hx).2
      have hyd : y.date = d := by simpa using (List.mem_filter.mp hy).2
      exact (articleLE_iff x y).mpr (le_of_eq (hyd.trans hxd.symm))
    have hkey : List.Sublist (l.filter (fun x => x.date == d)) (sortArticles l) :=
      List.sublist_mergeSort articleLE_trans articleLE_total hpw (List.filter_sublist l)
    have hff : (l.filter (fun x => x.date == d)).filter (fun x => x.date == d)
        = l.filter (fun x => x.date == d) :=
      List.filter_eq_self.mpr (fun x hx => (List.mem_filter.mp hx).2)
    have hsub2 : List.Sublist (l.filter (fun x => x.date == d))
        ((sortArticles l).filter (fun x => x.date == d)) := by
      have h2 := hkey.filter (fun x => x.date == d)
      rwa [hff] at h2
    have hperm : List.Perm ((sortArticles l).filter (fun x => x.date == d))
        (l.filter (fun x => x.date == d)) :=
      (List.mergeSort_perm l articleLE).filter _
    exact (hsub2.eq_of_length hperm.length_eq.symm).symm

/-- C9, witness: the theorem instantiated at two articles sharing a date. -/
theorem c9_witness :
    (art0.date = art0b.date ∧ List.Sublist [art0, art0b] [art0, art0b]) ∧
    (List.Sublist [art0, art0b] (sortArticles [art0, art0b]) ∧
     ∀ d : String, (sortArticles [art0, art0b]).filter (fun x => x.date == d)
        = [art0, art0b].filter (fun x => x.date == d)) :=
  ⟨⟨rfl, List.Sublist.refl _⟩, c9_sort_stable [art0, art0b] art0 art0b rfl (List.Sublist.refl _)⟩

/-! ## Claim C10: homepage with an empty store -/

/-- C10: when the store loads successfully but holds zero articles, the
homepage handler performs no substitution and returns status 200 with the
template byte-for-byte — in particular any literal latest-article token in
it is left in the body. -/
theorem c10_empty_store_homepage (tmpl : String) (fnf : Option String) :
    homepage (some tmpl) (some []) fnf = { status := 200, body := tmpl } := by
  simp [homepage, sortArticles]

end Simpleblog
